import Mathlib

/-!
Shallow embedding of the browser-automation repository
(`src/automation_agent/browser_controller.py` and
`src/automation_agent/native_bridge/bridge.py`) in Lean 4, with theorems
settling the specification claims about it.

Modelling conventions:

* Machine time is measured in ticks of 0.1 time-units, so the source's
  `time.sleep(0.5)` is 5 ticks and the default `startup_timeout = 15.0`
  is 150 ticks.
* Python byte strings returned by the HTTP layer are modelled by `Body`:
  a body either decodes (via `json.loads`) to a JSON value or raises a
  decode error; `jsonLoads` models that decoding step.
* Network and process side effects are made observable by threading an
  explicit trace: protocol operations append the requested URL to a
  `List String` trace, the process world records spawn calls and signals.
* Exceptions are modelled with `Except`: a Python function that can raise
  returns `Except e a`; a function with no uncaught `raise` is total.
-/

/-- JSON values, the result of `json.loads` on a response body.  Numbers are
modelled as integers; no claim inspects numeric payloads. -/
inductive Json where
  | null
  | bool (b : Bool)
  | num (n : Int)
  | str (s : String)
  | arr (elems : List Json)
  | obj (fields : List (String × Json))

/-- A response body (Python `bytes`) as seen through `payload.decode("utf-8")`
followed by `json.loads`: every byte string either decodes to exactly one JSON
value or makes `json.loads` raise `JSONDecodeError`.  `rawBody` keeps the
undecodable text. -/
inductive Body where
  | jsonBody (value : Json)
  | rawBody (text : String)

/-- Transport-level failures of `urllib.request.urlopen`: connection refused,
timeout, a non-2xx HTTP status, or any other exception. -/
inductive TransportFailure where
  | connectionRefused
  | timeout
  | httpStatus (code : Nat)
  | other (message : String)
deriving DecidableEq

/-- The exceptions the controller code can raise on a protocol operation:
`HTTPError` (the repository's protocol error, wrapping the failing URL and the
underlying transport cause), `json.JSONDecodeError` (which carries only the
undecodable text, not the URL), and `ValueError` (validation of actions). -/
inductive ReqError where
  | httpError (url : String) (cause : TransportFailure)
  | jsonDecodeError (text : String)
  | valueError (message : String)
deriving DecidableEq

/-- Models `json.loads(payload.decode("utf-8"))`: a decodable body yields its
JSON value, an undecodable one raises a decode error that does not mention the
URL the body came from. -/
def jsonLoads : Body → Except ReqError Json
  | .jsonBody v => .ok v
  | .rawBody t => .error (.jsonDecodeError t)

/-- Whether an `Except` value is a success (Python: the call returned rather
than raised). -/
def exceptOk {e a : Type} : Except e a → Bool
  | .ok _ => true
  | .error _ => false

/-- The error of a failed `Except` value, if any. -/
def errOf {e a : Type} : Except e a → Option e
  | .ok _ => none
  | .error exc => some exc

/-- Uppercase hexadecimal digit for `n < 16`, as `urllib.parse.quote` emits. -/
def hexUpper (n : Nat) : Char :=
  if n < 10 then Char.ofNat (48 + n) else Char.ofNat (55 + n)

/-- UTF-8 encoding of one character as its list of byte values, matching
Python's `str.encode("utf-8")` which `urllib.parse.quote` applies before
percent-encoding. -/
def utf8Bytes (c : Char) : List Nat :=
  let n := c.toNat
  if n < 128 then [n]
  else if n < 2048 then [192 + n / 64, 128 + n % 64]
  else if n < 65536 then [224 + n / 4096, 128 + n / 64 % 64, 128 + n % 64]
  else [240 + n / 262144, 128 + n / 4096 % 64, 128 + n / 64 % 64, 128 + n % 64]

/-- The UTF-8 bytes of a string. -/
def stringUtf8 (s : String) : List Nat := (s.data.map utf8Bytes).flatten

/-- Bytes `urllib.parse.quote` never encodes: ASCII letters, digits, and the
characters underscore, dot, hyphen and tilde. -/
def isSafeByte (b : Nat) : Bool :=
  (65 ≤ b && b ≤ 90) || (97 ≤ b && b ≤ 122) || (48 ≤ b && b ≤ 57) ||
    b = 95 || b = 46 || b = 45 || b = 126

/-- How `urllib.parse.quote_plus` renders one byte: safe bytes verbatim, a
space as `+`, anything else as `%` and two uppercase hex digits. -/
def quoteByte (b : Nat) : String :=
  if isSafeByte b then String.singleton (Char.ofNat b)
  else if b = 32 then "+"
  else String.mk ['%', hexUpper (b / 16 % 16), hexUpper (b % 16)]

/-- Models `urllib.parse.quote_plus`, the encoder `urllib.parse.urlencode`
applies to each value. -/
def quote_plus (s : String) : String :=
  String.join ((stringUtf8 s).map quoteByte)

/-- Models `urllib.parse.urlencode({"url": url})`: the key `url` is safe, so
the result is `url=` followed by the quoted value. -/
def urlencodeUrl (url : String) : String := "url=" ++ quote_plus url

/-- The `BrowserController` configuration plus the behaviour of the network
the default HTTP client talks to: `net url` is what `urllib.request.urlopen`
does for that URL — a body, or a transport failure. -/
structure BrowserController where
  chrome_path : String := "google-chrome"
  remote_debugging_port : Nat := 9222
  host : String := "127.0.0.1"
  startup_timeout : Nat := 150
  net : String → Except TransportFailure Body

/-- The controller's base URL `http://{host}:{port}`. -/
def BrowserController.baseUrl (c : BrowserController) : String :=
  "http://" ++ c.host ++ ":" ++ toString c.remote_debugging_port

/-- Models `_DefaultHTTPClient.request`: any exception the transport raises is
wrapped as `HTTPError("DevTools endpoint request failed for {url}: {exc}")`,
so the error carries the failing URL and the underlying cause. -/
def httpClientRequest (net : String → Except TransportFailure Body)
    (url : String) : Except ReqError Body :=
  match net url with
  | .ok body => .ok body
  | .error exc => .error (.httpError url exc)

/-- Models `BrowserController._request`: build the full URL and issue it
through the HTTP client; the trace records every URL actually requested. -/
def BrowserController.requestUrl (c : BrowserController) (path : String)
    (trace : List String) : Except ReqError Body × List String :=
  let url := c.baseUrl ++ path
  (httpClientRequest c.net url, trace ++ [url])

/-- Models `BrowserController.list_tabs`: request `/json/list`, then decode
the payload with `json.loads` (whose failure is not wrapped by the code). -/
def BrowserController.list_tabs (c : BrowserController)
    (trace : List String) : Except ReqError Json × List String :=
  match c.requestUrl "/json/list" trace with
  | (.ok payload, tr) => (jsonLoads payload, tr)
  | (.error exc, tr) => (.error exc, tr)

/-- Models `BrowserController.open_tab`: request `/json/new?` followed by the
urlencoded query, then decode the payload. -/
def BrowserController.open_tab (c : BrowserController) (url : String)
    (trace : List String) : Except ReqError Json × List String :=
  match c.requestUrl ("/json/new?" ++ urlencodeUrl url) trace with
  | (.ok payload, tr) => (jsonLoads payload, tr)
  | (.error exc, tr) => (.error exc, tr)

/-- Models `BrowserController.close_tab`: request `/json/close/{target_id}`,
then decode the payload. -/
def BrowserController.close_tab (c : BrowserController) (target_id : String)
    (trace : List String) : Except ReqError Json × List String :=
  match c.requestUrl ("/json/close/" ++ target_id) trace with
  | (.ok payload, tr) => (jsonLoads payload, tr)
  | (.error exc, tr) => (.error exc, tr)

/-- Models `BrowserController.activate_tab`: request
`/json/activate/{target_id}`, then decode the payload. -/
def BrowserController.activate_tab (c : BrowserController) (target_id : String)
    (trace : List String) : Except ReqError Json × List String :=
  match c.requestUrl ("/json/activate/" ++ target_id) trace with
  | (.ok payload, tr) => (jsonLoads payload, tr)
  | (.error exc, tr) => (.error exc, tr)

/-- A high-level action dictionary, as `execute_action` reads it: the code
only ever looks up the keys `type`, `url` and `target_id` with `.get`, so an
absent key is `none`. -/
structure ActionDict where
  type : Option String := none
  url : Option String := none
  target_id : Option String := none
deriving DecidableEq

/-- Python falsiness of an optional string, as tested by `if not url:`:
true for an absent key and for the empty string. -/
def strFalsy : Option String → Bool
  | none => true
  | some s => s = ""

/-- How a Python f-string renders an optional string: `None` for an absent
value, the string itself otherwise (used by the unsupported-action message). -/
def pyShow : Option String → String
  | none => "None"
  | some s => s

/-- Models `BrowserController.execute_action`: validate the action tag and its
required field, then route to exactly one protocol call.  Validation failures
raise `ValueError` before any request is issued, so the trace is returned
unchanged on them. -/
def BrowserController.execute_action (c : BrowserController)
    (action : ActionDict) (trace : List String) :
    Except ReqError Json × List String :=
  if action.type = some "open_url" then
    match action.url with
    | some u =>
      if u = "" then (.error (.valueError "open_url action requires a 'url'"), trace)
      else c.open_tab u trace
    | none => (.error (.valueError "open_url action requires a 'url'"), trace)
  else if action.type = some "activate" then
    match action.target_id with
    | some t =>
      if t = "" then (.error (.valueError "activate action requires a 'target_id'"), trace)
      else c.activate_tab t trace
    | none => (.error (.valueError "activate action requires a 'target_id'"), trace)
  else if action.type = some "close" then
    match action.target_id with
    | some t =>
      if t = "" then (.error (.valueError "close action requires a 'target_id'"), trace)
      else c.close_tab t trace
    | none => (.error (.valueError "close action requires a 'target_id'"), trace)
  else
    (.error (.valueError ("Unsupported action type: " ++ pyShow action.type)), trace)

/-- Models `BrowserController.perform_actions`: execute the actions in list
order, collecting results; the first exception propagates, so no later action
is attempted and the results gathered so far are discarded (while their
network effects remain in the trace). -/
def BrowserController.perform_actions (c : BrowserController) :
    List ActionDict → List String → Except ReqError (List Json) × List String
  | [], trace => (.ok [], trace)
  | action :: rest, trace =>
    match c.execute_action action trace with
    | (.ok result, tr2) =>
      match c.perform_actions rest tr2 with
      | (.ok results, tr3) => (.ok (result :: results), tr3)
      | (.error exc, tr3) => (.error exc, tr3)
    | (.error exc, tr2) => (.error exc, tr2)

/-- The result of `execute_action` run on an empty trace (its value part). -/
def execResult (c : BrowserController) (a : ActionDict) : Except ReqError Json :=
  (c.execute_action a []).1

/-- The URLs `execute_action` requests, taken from a run on an empty trace. -/
def execDelta (c : BrowserController) (a : ActionDict) : List String :=
  (c.execute_action a []).2

/-- One `time.sleep(0.5)` in 0.1-time-unit ticks. -/
def sleepTicks : Nat := 5

/-- Outcome of the readiness poll: `ready k` means the attempt with 0-based
index `k` succeeded (so `k + 1` attempts were made and none followed);
`timedOut n lastError` means the deadline passed after `n` failed attempts,
raising `TimeoutError` chained from the last observed error (`none` when no
attempt was ever made). -/
inductive WaitResult where
  | ready (k : Nat)
  | timedOut (attempts : Nat) (lastError : Option ReqError)
deriving DecidableEq

/-- The loop of `BrowserController._wait_until_ready`: while the clock is
before the deadline, try `list_tabs` (the stubbed protocol client `client`
gives the outcome of the attempt with each index); return on the first
success, otherwise remember the error, sleep 0.5 and retry.  Attempts are
modelled as instantaneous, so the clock advances by exactly `sleepTicks`
between consecutive attempts. -/
def waitLoop (client : Nat → Except ReqError Json) (deadline now k : Nat)
    (lastError : Option ReqError) : WaitResult :=
  if _h : now < deadline then
    match client k with
    | .ok _ => .ready k
    | .error exc => waitLoop client deadline (now + sleepTicks) (k + 1) (some exc)
  else
    .timedOut k lastError
termination_by deadline - now
decreasing_by simp [sleepTicks]; omega

/-- Models `BrowserController._wait_until_ready`: the deadline is the current
time plus `startup_timeout`, and polling starts immediately with no prior
error observed. -/
def wait_until_ready (client : Nat → Except ReqError Json)
    (startup_timeout now : Nat) : WaitResult :=
  waitLoop client (now + startup_timeout) now 0 none

/-- The number of attempts the poll makes when every attempt fails: one at
each tick `now + k * sleepTicks` before the deadline. -/
def numAttempts (startup_timeout : Nat) : Nat :=
  (startup_timeout + sleepTicks - 1) / sleepTicks

/-- The process world the controller acts on: `alive pid` models
`popen.poll() is None`, `spawn args` is the injected `process_factory`
returning the new process, and `client` is the attempt-indexed outcome of the
`list_tabs` polling during startup. -/
structure World where
  alive : Nat → Bool
  spawn : List String → Nat
  client : Nat → Except ReqError Json

/-- Models `BrowserController.launch_browser`'s argument construction: the
executable, the two fixed flags, then `--headless=new` when requested, then
`--user-data-dir=<path>` when `user_data_dir` is truthy (Python treats the
empty string as falsy), then the extra arguments verbatim. -/
def launchArgs (chrome_path : String) (port : Nat) (headless : Bool)
    (user_data_dir : Option String) (additional_args : List String) :
    List String :=
  let args := [chrome_path, "--remote-debugging-port=" ++ toString port,
    "--remote-allow-origins=*"]
  let args := if headless then args ++ ["--headless=new"] else args
  let args :=
    match user_data_dir with
    | some dir => if dir = "" then args else args ++ ["--user-data-dir=" ++ dir]
    | none => args
  if additional_args.isEmpty then args else args ++ additional_args

deriving instance DecidableEq for Except

/-- Everything observable about one `launch_browser` call: the `_process`
handle afterwards, the argument lists passed to the process factory, the
number of `list_tabs` attempts the readiness poll made, and whether the call
returned or raised `TimeoutError` chained from the last poll error. -/
structure LaunchResult where
  process : Option Nat
  spawnCalls : List (List String)
  pollAttempts : Nat
  outcome : Except (Option ReqError) Unit
deriving DecidableEq

/-- The attempts a finished poll made. -/
def attemptsOf : WaitResult → Nat
  | .ready k => k + 1
  | .timedOut n _ => n

/-- Whether the poll returned or raised. -/
def waitOutcome : WaitResult → Except (Option ReqError) Unit
  | .ready _ => .ok ()
  | .timedOut _ lastError => .error lastError

/-- Models `BrowserController.launch_browser` over a process world: a no-op
when a held process is still running; otherwise build the argument list,
spawn, store the handle, and poll for readiness.  The handle is stored before
the poll runs, so a readiness timeout leaves it in place. -/
def launch_browser (w : World) (process : Option Nat) (chrome_path : String)
    (port startup_timeout now : Nat) (headless : Bool)
    (user_data_dir : Option String) (additional_args : List String) :
    LaunchResult :=
  if (match process with | some p => w.alive p | none => false) then
    { process := process, spawnCalls := [], pollAttempts := 0, outcome := .ok () }
  else
    let args := launchArgs chrome_path port headless user_data_dir additional_args
    let pid := w.spawn args
    let r := wait_until_ready w.client startup_timeout now
    { process := some pid, spawnCalls := [args], pollAttempts := attemptsOf r,
      outcome := waitOutcome r }

/-- Models `BrowserController.is_browser_running`:
`bool(self._process and self._process.is_running())`. -/
def is_browser_running (w : World) (process : Option Nat) : Bool :=
  match process with
  | some p => w.alive p
  | none => false

/-- Models `_ProcessHandle.terminate`: send a termination signal only when
`popen.poll() is None`, i.e. only to a process that is still running; the
returned list records the pids signalled. -/
def handleTerminate (w : World) (pid : Nat) : List Nat :=
  if w.alive pid then [pid] else []

/-- Observable outcome of `terminate_browser`: the `_process` handle
afterwards and the pids that were signalled.  The function is total — the
source has no uncaught raise on this path (`_ProcessHandle.wait` catches
`subprocess.TimeoutExpired` and returns `None`, and its return value is
discarded), so terminate never throws. -/
structure TerminateResult where
  process : Option Nat
  signals : List Nat
deriving DecidableEq

/-- Models `BrowserController.terminate_browser`: with no handle it does
nothing; with a handle it signals the process if still running, waits up to
the grace period, and clears the handle. -/
def terminate_browser (w : World) (process : Option Nat) : TerminateResult :=
  match process with
  | some p => { process := none, signals := handleTerminate w p }
  | none => { process := none, signals := [] }

/-- Python's `str.startswith` on character lists. -/
def startswith (s pre : String) : Bool :=
  pre.data.isPrefixOf s.data

/-- A `subprocess.CompletedProcess` with text capture: return code, stdout
and stderr. -/
structure CompletedProcess where
  returncode : Int
  stdout : String
  stderr : String
deriving DecidableEq

/-- The exceptions `NativeBridge.run` can raise: `SecurityError` from the
allow/deny gate, and `subprocess.CalledProcessError` (raised by
`subprocess.run(..., check=True)` on a nonzero exit status, carrying that
status and the captured output). -/
inductive RunError where
  | securityError (message : String)
  | calledProcessError (returncode : Int) (stdout stderr : String)
deriving DecidableEq

/-- The `NativeBridge` state: its allowlist, a mapping from registered names
to the exact command templates. -/
structure NativeBridge where
  allowlist : List (String × List String)

/-- Models `NativeBridge.is_allowed`: membership of the name in the
allowlist. -/
def NativeBridge.is_allowed (b : NativeBridge) (name : String) : Bool :=
  (b.allowlist.lookup name).isSome

/-- The argument-vetting loop of `NativeBridge.run`: append the extra
arguments one by one, raising `SecurityError` at the first one that starts
with `--unsafe`. -/
def checkArgsLoop : List String → List String → Except RunError (List String)
  | args, [] => .ok args
  | args, arg :: rest =>
    if startswith arg "--unsafe" then
      .error (.securityError "Arguments containing '--unsafe' are blocked")
    else checkArgsLoop (args ++ [arg]) rest

/-- Models `NativeBridge.run` over an abstract subprocess executor `exec`
(what `subprocess.run` observes for a given argument list): reject
unregistered names, vet the extra arguments, then execute; `check=True` turns
a nonzero exit status into `CalledProcessError`.  The second component lists
the commands actually executed, so the security gate provably runs before any
subprocess. -/
def NativeBridge.run (b : NativeBridge) (exec : List String → CompletedProcess)
    (name : String) (extra_args : List String) :
    Except RunError CompletedProcess × List (List String) :=
  if b.is_allowed name = false then
    (.error (.securityError ("Command '" ++ name ++ "' is not allowlisted")), [])
  else
    let base_cmd := (b.allowlist.lookup name).getD []
    match checkArgsLoop base_cmd extra_args with
    | .error exc => (.error exc, [])
    | .ok args =>
      let result := exec args
      if result.returncode = 0 then (.ok result, [args])
      else
        (.error (.calledProcessError result.returncode result.stdout
          result.stderr), [args])

instance : Inhabited Json := ⟨Json.null⟩

/-- The payload of a successful `Except`, defaulting on errors. -/
def exceptValue {e a : Type} [Inhabited a] : Except e a → a
  | .ok v => v
  | .error _ => default

theorem append_assoc_lit (a q : String) :
    a ++ ("/json/new?" ++ ("url=" ++ q)) = a ++ "/json/new?url=" ++ q := by
  have h : "/json/new?" ++ ("url=" ++ q) = "/json/new?url=" ++ q := by
    rw [← String.append_assoc, show "/json/new?" ++ "url=" = "/json/new?url=" from by decide]
  rw [h, String.append_assoc]

/-- C5: for every valid OpenUrl action, the request path built by `open_tab`
is exactly `/json/new?url=` followed by the percent-encoded URL (appended to
the base URL in the recorded request), with standard URL query-encoding, so
that `https://example.com` encodes to `url=https%3A%2F%2Fexample.com`. -/
theorem open_tab_request_path (c : BrowserController) (url : String)
    (trace : List String) :
    (c.open_tab url trace).2 = trace ++ [c.baseUrl ++ "/json/new?url=" ++ quote_plus url] ∧
    quote_plus "https://example.com" = "https%3A%2F%2Fexample.com" := by
  constructor
  · unfold BrowserController.open_tab BrowserController.requestUrl urlencodeUrl
    rw [append_assoc_lit]
    cases h : httpClientRequest c.net
        (c.baseUrl ++ "/json/new?url=" ++ quote_plus url) <;>
      simp [h]
  · decide

/-- C6 counterexample: launching with `user_data_dir=""` supplies a user data
dir, yet the constructed argument list contains no `--user-data-dir` flag at
all, because the source tests Python truthiness (`if user_data_dir:`) and the
empty string is falsy. -/
theorem launch_args_empty_dir_counterexample :
    (some "" ≠ (none : Option String)) ∧
    launchArgs "google-chrome" 9222 false (some "") [] =
      ["google-chrome", "--remote-debugging-port=9222", "--remote-allow-origins=*"] ∧
    (launchArgs "google-chrome" 9222 false (some "") []).any
      (fun s => startswith s "--user-data-dir=") = false := by
  refine ⟨by decide, by decide, by decide⟩

/-- C6 (amended): the spawn argument list is exactly the executable path, the
remote-debugging-port flag, the allow-origins flag, then `--headless=new` iff
headless is requested, then `--user-data-dir=<path>` iff a non-empty user
data dir is given (an empty string counts as absent), then the extra
arguments verbatim in order. -/
theorem launch_args_flag_order (chrome_path : String) (port : Nat)
    (headless : Bool) (user_data_dir : Option String)
    (additional_args : List String) :
    launchArgs chrome_path port headless user_data_dir additional_args =
      [chrome_path, "--remote-debugging-port=" ++ toString port,
        "--remote-allow-origins=*"]
      ++ (if headless then ["--headless=new"] else [])
      ++ (match user_data_dir with
          | some dir => if dir = "" then [] else ["--user-data-dir=" ++ dir]
          | none => [])
      ++ additional_args := by
  cases user_data_dir with
  | none =>
    cases headless <;> cases additional_args <;> simp [launchArgs]
  | some dir =>
    by_cases hd : dir = "" <;> cases headless <;> cases additional_args <;>
      simp [launchArgs, hd]

/-- C7: when the controller already holds a handle to a running process,
`launch_browser` is a no-op — it spawns nothing, polls nothing, keeps the
same handle, and returns successfully. -/
theorem launch_browser_running_noop (w : World) (p : Nat) (chrome_path : String)
    (port startup_timeout now : Nat) (headless : Bool)
    (user_data_dir : Option String) (additional_args : List String)
    (h : w.alive p = true) :
    launch_browser w (some p) chrome_path port startup_timeout now headless
      user_data_dir additional_args =
      { process := some p, spawnCalls := [], pollAttempts := 0, outcome := .ok () } := by
  simp [launch_browser, h]

/-- A process world where every pid is reported alive. -/
def worldAlive : World where
  alive := fun _ => true
  spawn := fun _ => 7
  client := fun _ => .error (.httpError "http://127.0.0.1:9222/json/list" .connectionRefused)

theorem launch_browser_running_noop_witness :
    worldAlive.alive 3 = true ∧
    launch_browser worldAlive (some 3) "google-chrome" 9222 150 0 true none [] =
      { process := some 3, spawnCalls := [], pollAttempts := 0, outcome := .ok () } :=
  ⟨rfl, launch_browser_running_noop worldAlive 3 "google-chrome" 9222 150 0 true none [] rfl⟩

/-- C8: `terminate_browser` never throws (it is a total function on this
model, the source having no uncaught raise on this path) and is idempotent:
with no handle it is a no-op, after any call the handle is cleared, a handle
whose process has already exited is signalled nothing, and a second call in
succession is always a signal-free no-op. -/
theorem terminate_browser_idempotent (w : World) :
    terminate_browser w none = { process := none, signals := [] } ∧
    (∀ p, (terminate_browser w (some p)).process = none) ∧
    (∀ p, w.alive p = false →
      terminate_browser w (some p) = { process := none, signals := [] }) ∧
    (∀ process, terminate_browser w (terminate_browser w process).process =
      { process := none, signals := [] }) := by
  refine ⟨rfl, fun p => rfl, fun p hp => ?_, fun process => ?_⟩
  · simp [terminate_browser, handleTerminate, hp]
  · cases process <;> rfl

/-- A process world where every pid has already exited. -/
def worldDead : World where
  alive := fun _ => false
  spawn := fun _ => 0
  client := fun _ => .error (.httpError "http://127.0.0.1:9222/json/list" .timeout)

theorem terminate_browser_idempotent_witness :
    worldDead.alive 5 = false ∧
    terminate_browser worldDead (some 5) = { process := none, signals := [] } :=
  ⟨rfl, (terminate_browser_idempotent worldDead).2.2.1 5 rfl⟩

theorem execute_action_open_url_missing (c : BrowserController) (a : ActionDict)
    (trace : List String) (ht : a.type = some "open_url")
    (hu : strFalsy a.url = true) :
    c.execute_action a trace =
      (.error (.valueError "open_url action requires a 'url'"), trace) := by
  cases hau : a.url with
  | none => simp [BrowserController.execute_action, ht, hau]
  | some s =>
    have hs : s = "" := by simpa [strFalsy, hau] using hu
    simp [BrowserController.execute_action, ht, hau, hs]

theorem execute_action_activate_missing (c : BrowserController) (a : ActionDict)
    (trace : List String) (ht : a.type = some "activate")
    (hu : strFalsy a.target_id = true) :
    c.execute_action a trace =
      (.error (.valueError "activate action requires a 'target_id'"), trace) := by
  cases hau : a.target_id with
  | none => simp [BrowserController.execute_action, ht, hau]
  | some s =>
    have hs : s = "" := by simpa [strFalsy, hau] using hu
    simp [BrowserController.execute_action, ht, hau, hs]

theorem execute_action_close_missing (c : BrowserController) (a : ActionDict)
    (trace : List String) (ht : a.type = some "close")
    (hu : strFalsy a.target_id = true) :
    c.execute_action a trace =
      (.error (.valueError "close action requires a 'target_id'"), trace) := by
  cases hau : a.target_id with
  | none => simp [BrowserController.execute_action, ht, hau]
  | some s =>
    have hs : s = "" := by simpa [strFalsy, hau] using hu
    simp [BrowserController.execute_action, ht, hau, hs]

/-- C2: any action whose tag is `open_url`, `activate` or `close` but whose
required field is absent or empty, and any action with any other tag, makes
`execute_action` fail with a `ValueError` — with the message naming the
missing field in the three missing-field cases — while the request trace is
returned unchanged, i.e. zero network calls are issued before the check
rejects the action. -/
theorem execute_action_validation_gate (c : BrowserController) (a : ActionDict)
    (trace : List String)
    (h : (a.type = some "open_url" ∧ strFalsy a.url = true) ∨
         (a.type = some "activate" ∧ strFalsy a.target_id = true) ∨
         (a.type = some "close" ∧ strFalsy a.target_id = true) ∨
         (a.type ≠ some "open_url" ∧ a.type ≠ some "activate" ∧
           a.type ≠ some "close")) :
    (∃ msg, c.execute_action a trace = (.error (.valueError msg), trace)) ∧
    (a.type = some "open_url" → strFalsy a.url = true →
      c.execute_action a trace =
        (.error (.valueError "open_url action requires a 'url'"), trace)) ∧
    (a.type = some "activate" → strFalsy a.target_id = true →
      c.execute_action a trace =
        (.error (.valueError "activate action requires a 'target_id'"), trace)) ∧
    (a.type = some "close" → strFalsy a.target_id = true →
      c.execute_action a trace =
        (.error (.valueError "close action requires a 'target_id'"), trace)) := by
  refine ⟨?_, fun ht hu => execute_action_open_url_missing c a trace ht hu,
    fun ht hu => execute_action_activate_missing c a trace ht hu,
    fun ht hu => execute_action_close_missing c a trace ht hu⟩
  rcases h with ⟨ht, hu⟩ | ⟨ht, hu⟩ | ⟨ht, hu⟩ | ⟨h1, h2, h3⟩
  · exact ⟨_, execute_action_open_url_missing c a trace ht hu⟩
  · exact ⟨_, execute_action_activate_missing c a trace ht hu⟩
  · exact ⟨_, execute_action_close_missing c a trace ht hu⟩
  · refine ⟨"Unsupported action type: " ++ pyShow a.type, ?_⟩
    simp [BrowserController.execute_action, h1, h2, h3]

/-- A controller whose network refuses every connection, for witnesses. -/
def ctrlStub : BrowserController where
  net := fun _ => .error .connectionRefused

theorem execute_action_validation_gate_witness :
    ((⟨some "open_url", none, none⟩ : ActionDict).type = some "open_url" ∧
      strFalsy (⟨some "open_url", none, none⟩ : ActionDict).url = true) ∧
    (∃ msg, ctrlStub.execute_action ⟨some "open_url", none, none⟩ [] =
      (.error (.valueError msg), [])) :=
  ⟨by decide,
    (execute_action_validation_gate ctrlStub ⟨some "open_url", none, none⟩ []
      (Or.inl (by decide))).1⟩

theorem list_tabs_shift (c : BrowserController) (trace : List String) :
    c.list_tabs trace = ((c.list_tabs []).1, trace ++ (c.list_tabs []).2) := by
  unfold BrowserController.list_tabs BrowserController.requestUrl
  cases h : httpClientRequest c.net (c.baseUrl ++ "/json/list") <;> simp [h]

theorem open_tab_shift (c : BrowserController) (url : String) (trace : List String) :
    c.open_tab url trace = ((c.open_tab url []).1, trace ++ (c.open_tab url []).2) := by
  unfold BrowserController.open_tab BrowserController.requestUrl
  cases h : httpClientRequest c.net (c.baseUrl ++ ("/json/new?" ++ urlencodeUrl url)) <;>
    simp [h]

theorem close_tab_shift (c : BrowserController) (target_id : String)
    (trace : List String) :
    c.close_tab target_id trace =
      ((c.close_tab target_id []).1, trace ++ (c.close_tab target_id []).2) := by
  unfold BrowserController.close_tab BrowserController.requestUrl
  cases h : httpClientRequest c.net (c.baseUrl ++ ("/json/close/" ++ target_id)) <;>
    simp [h]

theorem activate_tab_shift (c : BrowserController) (target_id : String)
    (trace : List String) :
    c.activate_tab target_id trace =
      ((c.activate_tab target_id []).1, trace ++ (c.activate_tab target_id []).2) := by
  unfold BrowserController.activate_tab BrowserController.requestUrl
  cases h : httpClientRequest c.net (c.baseUrl ++ ("/json/activate/" ++ target_id)) <;>
    simp [h]

/-- The requests `execute_action` issues do not depend on the trace appended
so far: the call on any trace equals its result on the empty trace with the
new requests appended. -/
theorem execute_action_shift (c : BrowserController) (a : ActionDict)
    (trace : List String) :
    c.execute_action a trace = (execResult c a, trace ++ execDelta c a) := by
  unfold execResult execDelta
  by_cases h1 : a.type = some "open_url"
  · cases hau : a.url with
    | none => simp [BrowserController.execute_action, h1, hau]
    | some s =>
      by_cases hs : s = ""
      · simp [BrowserController.execute_action, h1, hau, hs]
      · simp only [BrowserController.execute_action, h1, hau, hs, if_true, if_false,
          ite_true, ite_false, reduceIte]
        rw [open_tab_shift c s trace]
  · by_cases h2 : a.type = some "activate"
    · cases hau : a.target_id with
      | none => simp [BrowserController.execute_action, h1, h2, hau]
      | some s =>
        by_cases hs : s = ""
        · simp [BrowserController.execute_action, h1, h2, hau, hs]
        · have hL : c.execute_action a trace = c.activate_tab s trace := by
            simp [BrowserController.execute_action, h1, h2, hau, hs]
          have hR : c.execute_action a [] = c.activate_tab s [] := by
            simp [BrowserController.execute_action, h1, h2, hau, hs]
          rw [hL, hR]
          rw [activate_tab_shift c s trace]
    · by_cases h3 : a.type = some "close"
      · cases hau : a.target_id with
        | none => simp [BrowserController.execute_action, h1, h2, h3, hau]
        | some s =>
          by_cases hs : s = ""
          · simp [BrowserController.execute_action, h1, h2, h3, hau, hs]
          · have hL : c.execute_action a trace = c.close_tab s trace := by
              simp [BrowserController.execute_action, h1, h2, h3, hau, hs]
            have hR : c.execute_action a [] = c.close_tab s [] := by
              simp [BrowserController.execute_action, h1, h2, h3, hau, hs]
            rw [hL, hR]
            rw [close_tab_shift c s trace]
      · simp [BrowserController.execute_action, h1, h2, h3]

theorem perform_actions_all_ok (c : BrowserController) (actions : List ActionDict)
    (h : ∀ a ∈ actions, exceptOk (execResult c a) = true) :
    ∀ trace, c.perform_actions actions trace =
      (.ok (actions.map fun a => exceptValue (execResult c a)),
       trace ++ actions.flatMap (execDelta c)) := by
  induction actions with
  | nil => intro trace; simp [BrowserController.perform_actions]
  | cons a rest ih =>
    intro trace
    have ha := h a (by simp)
    cases hres : execResult c a with
    | error exc => rw [hres] at ha; simp [exceptOk] at ha
    | ok v =>
      unfold BrowserController.perform_actions
      try dsimp only
      rw [execute_action_shift c a trace, hres]
      try dsimp only
      rw [ih (fun b hb => h b (by simp [hb])) (trace ++ execDelta c a)]
      simp [hres, exceptValue]

theorem perform_actions_first_error (c : BrowserController) (a : ActionDict)
    (post : List ActionDict) (exc : ReqError) (ha : execResult c a = .error exc) :
    ∀ pre : List ActionDict, (∀ b ∈ pre, exceptOk (execResult c b) = true) →
    ∀ trace, c.perform_actions (pre ++ a :: post) trace =
      (.error exc, trace ++ pre.flatMap (execDelta c) ++ execDelta c a) := by
  intro pre
  induction pre with
  | nil =>
    intro _ trace
    rw [List.nil_append]
    unfold BrowserController.perform_actions
    try dsimp only
    rw [execute_action_shift c a trace, ha]
    simp
  | cons b rest ih =>
    intro hpre trace
    have hb := hpre b (by simp)
    cases hres : execResult c b with
    | error e2 => rw [hres] at hb; simp [exceptOk] at hb
    | ok v =>
      rw [List.cons_append]
      unfold BrowserController.perform_actions
      try dsimp only
      rw [execute_action_shift c b trace, hres]
      try dsimp only
      rw [ih (fun x hx => hpre x (by simp [hx])) (trace ++ execDelta c b)]
      simp

/-- C3: `perform_actions` dispatches the actions strictly in input order, one
at a time — the request trace grows by each action's requests in list order —
and returns the results in that same order; when dispatching some action
fails, no action after it is attempted (the trace ends with the failing
action's requests) and the network effects of the earlier actions are not
rolled back (their requests remain in the trace). -/
theorem perform_actions_sequential_order (c : BrowserController)
    (actions : List ActionDict) (trace : List String) :
    ((∀ a ∈ actions, exceptOk (execResult c a) = true) →
      c.perform_actions actions trace =
        (.ok (actions.map fun a => exceptValue (execResult c a)),
         trace ++ actions.flatMap (execDelta c))) ∧
    (∀ pre a post exc, actions = pre ++ a :: post →
      (∀ b ∈ pre, exceptOk (execResult c b) = true) →
      execResult c a = .error exc →
      c.perform_actions actions trace =
        (.error exc, trace ++ pre.flatMap (execDelta c) ++ execDelta c a)) := by
  constructor
  · intro h
    exact perform_actions_all_ok c actions h trace
  · intro pre a post exc heq hpre ha
    rw [heq]
    exact perform_actions_first_error c a post exc ha pre hpre trace

/-- A controller whose network answers every request with the JSON object
`{"id": "target-1"}`, for witnesses. -/
def ctrlOk : BrowserController where
  net := fun _ => .ok (.jsonBody (Json.obj [("id", Json.str "target-1")]))

theorem perform_actions_sequential_order_witness :
    ctrlOk.perform_actions
        [⟨some "activate", none, some "target-1"⟩, ⟨some "close", none, some "target-1"⟩] [] =
      (.ok ([⟨some "activate", none, some "target-1"⟩,
          ⟨some "close", none, some "target-1"⟩].map
            fun a => exceptValue (execResult ctrlOk a)),
       [] ++ [⟨some "activate", none, some "target-1"⟩,
          ⟨some "close", none, some "target-1"⟩].flatMap (execDelta ctrlOk)) :=
  (perform_actions_sequential_order ctrlOk
    [⟨some "activate", none, some "target-1"⟩, ⟨some "close", none, some "target-1"⟩] []).1
    (by decide)

theorem waitLoop_all_fail (client : Nat → Except ReqError Json)
    (hf : ∀ j, exceptOk (client j) = false) (deadline : Nat) :
    ∀ d now k lastError, deadline - now ≤ d →
      waitLoop client deadline now k lastError =
        .timedOut (k + (deadline - now + sleepTicks - 1) / sleepTicks)
          (if deadline ≤ now then lastError
           else errOf (client (k + (deadline - now + sleepTicks - 1) / sleepTicks - 1))) := by
  intro d
  induction d with
  | zero =>
    intro now k lastError hd
    have hnow : deadline ≤ now := by omega
    have hz : deadline - now = 0 := by omega
    rw [waitLoop]
    simp [Nat.not_lt.mpr hnow, hnow, hz, sleepTicks]
  | succ d ih =>
    intro now k lastError hd
    by_cases hnow : now < deadline
    · have hck := hf k
      cases hc : client k with
      | ok v => rw [hc] at hck; simp [exceptOk] at hck
      | error exc =>
        rw [waitLoop]
        simp only [hnow, dite_true, dif_pos, hc]
        rw [ih (now + sleepTicks) (k + 1) (some exc) (by simp [sleepTicks]; omega)]
        have harith : (k + 1) + (deadline - (now + sleepTicks) + sleepTicks - 1) / sleepTicks =
            k + (deadline - now + sleepTicks - 1) / sleepTicks := by
          simp only [sleepTicks]
          omega
        by_cases hD : deadline ≤ now + sleepTicks
        · have hn0 : (deadline - (now + sleepTicks) + sleepTicks - 1) / sleepTicks = 0 := by
            simp only [sleepTicks] at hD ⊢
            omega
          have hn1 : k + (deadline - now + sleepTicks - 1) / sleepTicks = k + 1 := by
            simp only [sleepTicks] at hD ⊢
            omega
          have hn2 : k + (deadline - now + sleepTicks - 1) / sleepTicks - 1 = k := by
            simp only [sleepTicks] at hD ⊢
            omega
          rw [if_pos hD, if_neg (by omega : ¬ deadline ≤ now), hn0, hn1]
          simp [hc, errOf]
        · rw [if_neg hD, if_neg (by omega : ¬ deadline ≤ now), harith]
    · have hle : deadline ≤ now := by omega
      have hz : deadline - now = 0 := by omega
      rw [waitLoop]
      simp [hnow, hle, hz, sleepTicks]

theorem waitLoop_first_success (client : Nat → Except ReqError Json)
    (deadline K : Nat) (hK : exceptOk (client K) = true)
    (hbefore : ∀ j, j < K → exceptOk (client j) = false) :
    ∀ d now k lastError, k ≤ K → K - k ≤ d →
      now + (K - k) * sleepTicks < deadline →
      waitLoop client deadline now k lastError = .ready K := by
  intro d
  induction d with
  | zero =>
    intro now k lastError hkK hKk htime
    have hk : k = K := by omega
    subst hk
    have hnow : now < deadline := by
      simp only [sleepTicks] at htime
      omega
    cases hc : client k with
    | error exc => rw [hc] at hK; simp [exceptOk] at hK
    | ok v =>
      rw [waitLoop]
      simp [hnow, hc]
  | succ d ih =>
    intro now k lastError hkK hKk htime
    by_cases hk : k = K
    · subst hk
      have hnow : now < deadline := by
        simp only [sleepTicks] at htime
        omega
      cases hc : client k with
      | error exc => rw [hc] at hK; simp [exceptOk] at hK
      | ok v =>
        rw [waitLoop]
        simp [hnow, hc]
    · have hkK2 : k < K := by omega
      have hck := hbefore k hkK2
      cases hc : client k with
      | ok v => rw [hc] at hck; simp [exceptOk] at hck
      | error exc =>
        have hnow : now < deadline := by
          have : now ≤ now + (K - k) * sleepTicks := Nat.le_add_right _ _
          omega
        rw [waitLoop]
        simp only [hnow, dite_true, dif_pos, hc]
        refine ih (now + sleepTicks) (k + 1) (some exc) (by omega) (by omega) ?_
        have hexp : K - k = (K - (k + 1)) + 1 := by omega
        rw [hexp] at htime
        simp only [Nat.add_mul, Nat.one_mul] at htime
        omega

/-- C1: for every deadline `now + startup_timeout` and every stubbed protocol
client (given as the outcome of each attempt, attempts sleeping a fixed
`sleepTicks = 0.5` time-units apart, so attempt `K` starts at
`now + K * sleepTicks`), the readiness poll returns the first time an attempt
succeeds — `ready K` after the failing attempts before `K` — and makes no
further attempts; and when every attempt fails, it raises the timeout error
after `numAttempts startup_timeout` evenly spaced attempts (a linear count in
the timeout, fixed interval, no exponential backoff), chained from the last
observed error, which is `none` exactly when the deadline passed before any
attempt was made. -/
theorem wait_until_ready_first_success_or_timeout
    (client : Nat → Except ReqError Json) (startup_timeout now : Nat) :
    (∀ K, (∀ j, j < K → exceptOk (client j) = false) →
      exceptOk (client K) = true → K * sleepTicks < startup_timeout →
      wait_until_ready client startup_timeout now = .ready K) ∧
    ((∀ j, exceptOk (client j) = false) →
      wait_until_ready client startup_timeout now =
        .timedOut (numAttempts startup_timeout)
          (if startup_timeout = 0 then none
           else errOf (client (numAttempts startup_timeout - 1)))) := by
  constructor
  · intro K hbefore hK htime
    unfold wait_until_ready
    refine waitLoop_first_success client (now + startup_timeout) K hK hbefore K now 0 none
      (by omega) (by omega) ?_
    simpa using htime
  · intro hf
    unfold wait_until_ready numAttempts
    rw [waitLoop_all_fail client hf (now + startup_timeout)
      (now + startup_timeout - now) now 0 none (by omega)]
    have h1 : now + startup_timeout - now = startup_timeout := by omega
    rw [h1, Nat.zero_add]
    by_cases h0 : startup_timeout = 0
    · have hc : now + startup_timeout ≤ now := by omega
      rw [if_pos hc, if_pos h0]
    · have hc : ¬ now + startup_timeout ≤ now := by omega
      rw [if_neg hc, if_neg h0]

/-- A stub client failing on attempts 0 and 1 and succeeding on attempt 2. -/
def clientTwoFails : Nat → Except ReqError Json :=
  fun k =>
    if k < 2 then .error (.httpError "http://127.0.0.1:9222/json/list" .connectionRefused)
    else .ok (Json.arr [])

theorem wait_until_ready_first_success_or_timeout_witness :
    wait_until_ready clientTwoFails 20 100 = .ready 2 :=
  (wait_until_ready_first_success_or_timeout clientTwoFails 20 100).1 2
    (by decide) (by decide) (by decide)

/-- Whether an operation failed with the wrapped protocol error (the
repository's `HTTPError`). -/
def isHttpError {a : Type} : Except ReqError a → Bool
  | .error (.httpError _ _) => true
  | _ => false

/-- C4 counterexample: a network that answers `200 OK` with the body
`not json` makes `list_tabs` raise a bare JSON decode error — an error that
is not the wrapped protocol error and carries only the undecodable text, not
the failing URL — contradicting the claim that such a failure surfaces as a
`ProtocolError` carrying the failing URL. -/
theorem list_tabs_invalid_json_counterexample :
    ({ net := fun _ => .ok (.rawBody "not json") : BrowserController }.list_tabs []).1 =
      .error (.jsonDecodeError "not json") ∧
    isHttpError
      ({ net := fun _ => .ok (.rawBody "not json") : BrowserController }.list_tabs []).1 =
      false := by
  constructor <;> rfl

/-- C4 (amended): for each of the four protocol operations, a transport-level
failure (connection refused, timeout, non-2xx status, or any other transport
exception) surfaces as the wrapped protocol error `HTTPError` carrying the
failing URL and the underlying cause; a response body that is not valid JSON
surfaces as a JSON decode error carrying the undecodable text but not the
URL.  In both cases the failure propagates to the caller — it is never
swallowed. -/
theorem protocol_errors_carry_url (c : BrowserController)
    (trace : List String) (url target_id : String) :
    (∀ cause, c.net (c.baseUrl ++ "/json/list") = .error cause →
      c.list_tabs trace =
        (.error (.httpError (c.baseUrl ++ "/json/list") cause),
         trace ++ [c.baseUrl ++ "/json/list"])) ∧
    (∀ cause, c.net (c.baseUrl ++ ("/json/new?" ++ urlencodeUrl url)) = .error cause →
      c.open_tab url trace =
        (.error (.httpError (c.baseUrl ++ ("/json/new?" ++ urlencodeUrl url)) cause),
         trace ++ [c.baseUrl ++ ("/json/new?" ++ urlencodeUrl url)])) ∧
    (∀ cause, c.net (c.baseUrl ++ ("/json/close/" ++ target_id)) = .error cause →
      c.close_tab target_id trace =
        (.error (.httpError (c.baseUrl ++ ("/json/close/" ++ target_id)) cause),
         trace ++ [c.baseUrl ++ ("/json/close/" ++ target_id)])) ∧
    (∀ cause, c.net (c.baseUrl ++ ("/json/activate/" ++ target_id)) = .error cause →
      c.activate_tab target_id trace =
        (.error (.httpError (c.baseUrl ++ ("/json/activate/" ++ target_id)) cause),
         trace ++ [c.baseUrl ++ ("/json/activate/" ++ target_id)])) ∧
    (∀ text, c.net (c.baseUrl ++ "/json/list") = .ok (.rawBody text) →
      c.list_tabs trace =
        (.error (.jsonDecodeError text), trace ++ [c.baseUrl ++ "/json/list"])) ∧
    (∀ text, c.net (c.baseUrl ++ ("/json/new?" ++ urlencodeUrl url)) = .ok (.rawBody text) →
      c.open_tab url trace =
        (.error (.jsonDecodeError text),
         trace ++ [c.baseUrl ++ ("/json/new?" ++ urlencodeUrl url)])) ∧
    (∀ text, c.net (c.baseUrl ++ ("/json/close/" ++ target_id)) = .ok (.rawBody text) →
      c.close_tab target_id trace =
        (.error (.jsonDecodeError text),
         trace ++ [c.baseUrl ++ ("/json/close/" ++ target_id)])) ∧
    (∀ text, c.net (c.baseUrl ++ ("/json/activate/" ++ target_id)) = .ok (.rawBody text) →
      c.activate_tab target_id trace =
        (.error (.jsonDecodeError text),
         trace ++ [c.baseUrl ++ ("/json/activate/" ++ target_id)])) := by
  refine ⟨fun cause hnet => ?_, fun cause hnet => ?_, fun cause hnet => ?_,
    fun cause hnet => ?_, fun text hnet => ?_, fun text hnet => ?_,
    fun text hnet => ?_, fun text hnet => ?_⟩
  · simp [BrowserController.list_tabs, BrowserController.requestUrl,
      httpClientRequest, hnet]
  · simp [BrowserController.open_tab, BrowserController.requestUrl,
      httpClientRequest, hnet]
  · simp [BrowserController.close_tab, BrowserController.requestUrl,
      httpClientRequest, hnet]
  · simp [BrowserController.activate_tab, BrowserController.requestUrl,
      httpClientRequest, hnet]
  · simp [BrowserController.list_tabs, BrowserController.requestUrl,
      httpClientRequest, hnet, jsonLoads]
  · simp [BrowserController.open_tab, BrowserController.requestUrl,
      httpClientRequest, hnet, jsonLoads]
  · simp [BrowserController.close_tab, BrowserController.requestUrl,
      httpClientRequest, hnet, jsonLoads]
  · simp [BrowserController.activate_tab, BrowserController.requestUrl,
      httpClientRequest, hnet, jsonLoads]

theorem protocol_errors_carry_url_witness :
    ctrlStub.net (ctrlStub.baseUrl ++ "/json/list") = .error .connectionRefused ∧
    ctrlStub.list_tabs [] =
      (.error (.httpError (ctrlStub.baseUrl ++ "/json/list") .connectionRefused),
       [] ++ [ctrlStub.baseUrl ++ "/json/list"]) :=
  ⟨rfl, (protocol_errors_carry_url ctrlStub [] "" "").1 .connectionRefused rfl⟩

theorem checkArgsLoop_all_clean (extra : List String)
    (h : ∀ a ∈ extra, startswith a "--unsafe" = false) :
    ∀ args, checkArgsLoop args extra = .ok (args ++ extra) := by
  induction extra with
  | nil => intro args; simp [checkArgsLoop]
  | cons a rest ih =>
    intro args
    have ha := h a (by simp)
    rw [checkArgsLoop, if_neg (by simp [ha])]
    rw [ih (fun b hb => h b (by simp [hb])) (args ++ [a])]
    simp

theorem checkArgsLoop_first_bad (bad : String) (post : List String)
    (hbad : startswith bad "--unsafe" = true) :
    ∀ pre : List String, (∀ a ∈ pre, startswith a "--unsafe" = false) →
    ∀ args, checkArgsLoop args (pre ++ bad :: post) =
      .error (.securityError "Arguments containing '--unsafe' are blocked") := by
  intro pre
  induction pre with
  | nil =>
    intro _ args
    rw [List.nil_append, checkArgsLoop, if_pos hbad]
  | cons a rest ih =>
    intro hpre args
    have ha := hpre a (by simp)
    rw [List.cons_append, checkArgsLoop, if_neg (by simp [ha])]
    exact ih (fun b hb => hpre b (by simp [hb])) (args ++ [a])

/-- C9 counterexample: with `ls` registered in the allowlist and a subprocess
world where the command exits with status 1, `run` passes the security gate
and executes the command (the executed-commands trace is `[["ls"]]`), but
then raises `CalledProcessError` instead of returning the exit status and
captured output, because the source invokes `subprocess.run` with
`check=True`. -/
theorem run_nonzero_exit_counterexample :
    NativeBridge.is_allowed ⟨[("ls", ["ls"])]⟩ "ls" = true ∧
    NativeBridge.run ⟨[("ls", ["ls"])]⟩ (fun _ => ⟨1, "", "boom"⟩) "ls" [] =
      (.error (.calledProcessError 1 "" "boom"), [["ls"]]) ∧
    exceptOk (NativeBridge.run ⟨[("ls", ["ls"])]⟩ (fun _ => ⟨1, "", "boom"⟩) "ls" []).1 =
      false := by
  refine ⟨rfl, rfl, rfl⟩

/-- C9 (amended): `run` fails with `SecurityError` before any subprocess is
executed when the name is not pre-registered or some extra argument matches
the disallowed pattern (`--unsafe` prefix); otherwise it executes the
registered command with the extra arguments appended exactly once and returns
the completed process when its exit status is 0, while a nonzero exit status
raises `CalledProcessError` carrying the status and captured output (the
source calls `subprocess.run` with `check=True`). -/
theorem run_security_gate (b : NativeBridge)
    (exec : List String → CompletedProcess) (name : String)
    (extra_args : List String) :
    (b.is_allowed name = false →
      b.run exec name extra_args =
        (.error (.securityError ("Command '" ++ name ++ "' is not allowlisted")), [])) ∧
    (b.is_allowed name = true →
      ∀ pre bad post, extra_args = pre ++ bad :: post →
      startswith bad "--unsafe" = true →
      (∀ a ∈ pre, startswith a "--unsafe" = false) →
      b.run exec name extra_args =
        (.error (.securityError "Arguments containing '--unsafe' are blocked"), [])) ∧
    (b.is_allowed name = true →
      (∀ a ∈ extra_args, startswith a "--unsafe" = false) →
      b.run exec name extra_args =
        (if (exec ((b.allowlist.lookup name).getD [] ++ extra_args)).returncode = 0 then
          .ok (exec ((b.allowlist.lookup name).getD [] ++ extra_args))
         else
          .error (.calledProcessError
            (exec ((b.allowlist.lookup name).getD [] ++ extra_args)).returncode
            (exec ((b.allowlist.lookup name).getD [] ++ extra_args)).stdout
            (exec ((b.allowlist.lookup name).getD [] ++ extra_args)).stderr),
         [(b.allowlist.lookup name).getD [] ++ extra_args])) := by
  refine ⟨fun hno => ?_, fun hyes pre bad post heq hbad hpre => ?_, fun hyes hclean => ?_⟩
  · rw [NativeBridge.run, if_pos (by rw [hno])]
  · rw [NativeBridge.run, if_neg (by simp [hyes]), heq]
    dsimp only
    rw [checkArgsLoop_first_bad bad post hbad pre hpre ((b.allowlist.lookup name).getD [])]
  · rw [NativeBridge.run, if_neg (by simp [hyes])]
    dsimp only
    rw [checkArgsLoop_all_clean extra_args hclean ((b.allowlist.lookup name).getD [])]
    dsimp only
    split <;> rfl

theorem run_security_gate_witness :
    NativeBridge.is_allowed ⟨[("ls", ["ls"])]⟩ "rm" = false ∧
    NativeBridge.run ⟨[("ls", ["ls"])]⟩ (fun _ => ⟨1, "", "boom"⟩) "rm" [] =
      (.error (.securityError ("Command '" ++ "rm" ++ "' is not allowlisted")), []) :=
  ⟨rfl, (run_security_gate ⟨[("ls", ["ls"])]⟩ (fun _ => ⟨1, "", "boom"⟩) "rm" []).1 rfl⟩

/-- C10: when the controller holds no running process and the readiness poll
then fails every attempt, `launch_browser` raises the timeout error but the
spawned process handle is retained (launch is not atomic, no state reset on
error); while the spawned process stays alive, `is_browser_running` on the
retained handle is true and a subsequent `launch_browser` is a no-op that
spawns nothing and polls nothing. -/
theorem launch_timeout_retains_handle (w : World) (process : Option Nat)
    (chrome_path : String) (port startup_timeout now : Nat) (headless : Bool)
    (user_data_dir : Option String) (additional_args : List String)
    (hnot : is_browser_running w process = false)
    (hfail : ∀ j, exceptOk (w.client j) = false) :
    (launch_browser w process chrome_path port startup_timeout now headless
        user_data_dir additional_args).process =
      some (w.spawn (launchArgs chrome_path port headless user_data_dir
        additional_args)) ∧
    (launch_browser w process chrome_path port startup_timeout now headless
        user_data_dir additional_args).outcome =
      .error (if startup_timeout = 0 then none
        else errOf (w.client (numAttempts startup_timeout - 1))) ∧
    (w.alive (w.spawn (launchArgs chrome_path port headless user_data_dir
        additional_args)) = true →
      is_browser_running w
        (launch_browser w process chrome_path port startup_timeout now headless
          user_data_dir additional_args).process = true ∧
      launch_browser w
        (launch_browser w process chrome_path port startup_timeout now headless
          user_data_dir additional_args).process
        chrome_path port startup_timeout now headless user_data_dir additional_args =
        { process := (launch_browser w process chrome_path port startup_timeout now
            headless user_data_dir additional_args).process,
          spawnCalls := [], pollAttempts := 0, outcome := .ok () }) := by
  have hwait := (wait_until_ready_first_success_or_timeout w.client startup_timeout now).2 hfail
  have hlaunch : launch_browser w process chrome_path port startup_timeout now headless
      user_data_dir additional_args =
      { process := some (w.spawn (launchArgs chrome_path port headless user_data_dir
          additional_args)),
        spawnCalls := [launchArgs chrome_path port headless user_data_dir additional_args],
        pollAttempts := attemptsOf (wait_until_ready w.client startup_timeout now),
        outcome := waitOutcome (wait_until_ready w.client startup_timeout now) } := by
    cases process with
    | none => rfl
    | some p =>
      have hp : w.alive p = false := hnot
      rw [launch_browser.eq_def, if_neg (by simp [hp])]
  refine ⟨by rw [hlaunch], ?_, fun halive => ⟨?_, ?_⟩⟩
  · rw [hlaunch]
    show waitOutcome (wait_until_ready w.client startup_timeout now) = _
    rw [hwait]
    rfl
  · rw [hlaunch]
    exact halive
  · rw [hlaunch]
    show launch_browser w (some (w.spawn (launchArgs chrome_path port headless
      user_data_dir additional_args))) chrome_path port startup_timeout now headless
      user_data_dir additional_args = _
    rw [launch_browser.eq_def, if_pos (by simp [halive])]

/-- A world whose processes all stay alive and whose protocol endpoint never
answers, so readiness polling always times out. -/
def worldNeverReady : World where
  alive := fun _ => true
  spawn := fun _ => 42
  client := fun _ => .error (.httpError "http://127.0.0.1:9222/json/list" .connectionRefused)

theorem launch_timeout_retains_handle_witness :
    (launch_browser worldNeverReady none "google-chrome" 9222 7 0 true none []).process =
      some (worldNeverReady.spawn (launchArgs "google-chrome" 9222 true none [])) ∧
    (launch_browser worldNeverReady none "google-chrome" 9222 7 0 true none []).outcome =
      .error (if 7 = 0 then none else errOf (worldNeverReady.client (numAttempts 7 - 1))) ∧
    (worldNeverReady.alive (worldNeverReady.spawn (launchArgs "google-chrome" 9222 true
        none [])) = true →
      is_browser_running worldNeverReady
        (launch_browser worldNeverReady none "google-chrome" 9222 7 0 true none []).process =
        true ∧
      launch_browser worldNeverReady
        (launch_browser worldNeverReady none "google-chrome" 9222 7 0 true none []).process
        "google-chrome" 9222 7 0 true none [] =
        { process := (launch_browser worldNeverReady none "google-chrome" 9222 7 0 true
            none []).process,
          spawnCalls := [], pollAttempts := 0, outcome := .ok () }) :=
  launch_timeout_retains_handle worldNeverReady none "google-chrome" 9222 7 0 true none []
    rfl (fun _ => rfl)
